import Mathlib

/-!
Verification of the configuration-persistence and window-lifecycle core of
`memos_client.py` (a PyQt6 desktop shell for a self-hosted Memos instance).

The embedding models:
  * the persisted JSON record and Python dict semantics needed by
    `load_config` / `save_config` (lines 21-54 of the source);
  * the UI handlers that read and write the record:
    `LauncherWindow.handle_connect` (112-122), `SettingsWindow.reset_url`
    (145-152), `SettingsWindow.on_checkbox_changed` (154-161), the startup
    routing in `MemosClient.__init__` (172-176), the geometry application in
    `MemosClient.show_memo_window` (242-249), the tray quit action (192-193)
    and the installed close handler `on_close` (280-288).

File contents are abstracted to the outcome that `load_config` can observe:
the file is missing, unreadable (I/O error), present but not valid JSON, or
present with a parsed JSON value.  Writing a record is modelled as producing
the parsed form of the JSON that `json.dump` serializes; `json` round-trips
the values involved faithfully.
-/

/-- A JSON value as produced by Python's `json.load`: `obj` models a parsed
Python dict (string keys, no duplicates after parsing). -/
inductive Json where
  | null
  | bool (b : Bool)
  | num (n : Int)
  | str (s : String)
  | arr (elems : List Json)
  | obj (entries : List (String × Json))

/-- A Python dict with string keys, as an insertion-ordered association list
(unique keys; Python dicts cannot hold a key twice). -/
abbrev Dict := List (String × Json)

/-- Python `d[key]` / `d.get(key)` lookup. -/
def lookupKey : Dict → String → Option Json
  | [], _ => Option.none
  | (k, v) :: rest, key => if k = key then some v else lookupKey rest key

/-- Python `key in d`. -/
def hasKey (d : Dict) (key : String) : Bool :=
  (lookupKey d key).isSome

/-- Value of `d[key]` for a key that is present; `Json.null` (Python `None`)
stands in for the impossible missing case so the function is total.  Every
use below is at a key the record is proved to contain. -/
def getKey (d : Dict) (key : String) : Json :=
  (lookupKey d key).getD Json.null

/-- Python `d[key] = v`: replace in place if present, else append. -/
def setKey : Dict → String → Json → Dict
  | [], key, v => [(key, v)]
  | (k, w) :: rest, key, v =>
      if k = key then (key, v) :: rest else (k, w) :: setKey rest key v

/-- Python truthiness of a JSON-shaped value (`if config["memos_url"]:`,
`if window_state:`, `if not host:`). -/
def pyTruthy : Json → Bool
  | .null => false
  | .bool b => b
  | .num n => n != 0
  | .str s => s != ""
  | .arr es => !es.isEmpty
  | .obj es => !es.isEmpty

/-- The `default_config` dict built at the top of `load_config`
(source lines 42-46). -/
def defaultConfig : Dict :=
  [("memos_url", Json.null), ("window", Json.null), ("close_to_tray", Json.bool false)]

/-- `dict.update` with another dict: each entry is assigned in order. -/
def updateEntries (d : Dict) (kvs : List (String × Json)) : Dict :=
  kvs.foldl (fun acc kv => setKey acc kv.1 kv.2) d

/-- One element of a sequence passed to `dict.update`.  Python accepts any
iterable of key/value pairs: a two-element list with a hashable key, a
two-character string (pair of its characters), or a two-key dict (pair of
its keys).  `some (some kv)` = a string-keyed pair; `some Option.none` = a
valid pair whose key is a non-string hashable value (it can never collide
with the record's string keys, so it is not tracked); `Option.none` = the
element raises (unhashable key, wrong length, or not a sequence). -/
def seqElemPair : Json → Option (Option (String × Json))
  | .arr [.str k, v] => some (some (k, v))
  | .arr [.null, _] => some Option.none
  | .arr [.bool _, _] => some Option.none
  | .arr [.num _, _] => some Option.none
  | .str s =>
      match s.data with
      | [a, b] => some (some (String.mk [a], Json.str (String.mk [b])))
      | _ => Option.none
  | .obj [(k1, _), (k2, _)] => some (some (k1, Json.str k2))
  | _ => Option.none

/-- `dict.update` with a list: elements are consumed in order; the dict is
mutated in place, so when an element raises, the assignments already made
are kept (the caller's bare `except` then discards the exception). -/
def updateFromList (d : Dict) : List Json → Dict
  | [] => d
  | e :: rest =>
      match seqElemPair e with
      | Option.none => d
      | some Option.none => updateFromList d rest
      | some (some (k, v)) => updateFromList (setKey d k v) rest

/-- `default_config.update(data)` (source line 51) for an arbitrary parsed
JSON value `data`.  A dict merges entry by entry; a list is treated as a
sequence of pairs; every other value (`null`, number, bool, string) makes
`update` raise before any assignment, which the bare `except` swallows,
leaving `d` unchanged (a string raises at its first element, each character
being a length-1 sequence). -/
def dictUpdate (d : Dict) : Json → Dict
  | .obj kvs => updateEntries d kvs
  | .arr es => updateFromList d es
  | _ => d

/-- What `load_config` can observe about the configuration file. -/
inductive FileState where
  | missing
  | ioError
  | unparsable
  | parsed (content : Json)

/-- `load_config` (source lines 41-54): start from the defaults; if the file
exists and parses, merge the parsed value over them; any failure (missing
file, I/O error, parse error, or an error raised by the merge itself) is
swallowed and the record built so far is returned. -/
def load_config : FileState → Dict
  | .parsed j => dictUpdate defaultConfig j
  | _ => defaultConfig

/-- Window geometry, as stored and as held by a `QRect`. -/
structure Geometry where
  x : Int
  y : Int
  width : Int
  height : Int

/-- The JSON object written for a `QRect` (source lines 31-36). -/
def geometryJson (g : Geometry) : Json :=
  Json.obj [("x", Json.num g.x), ("y", Json.num g.y),
            ("width", Json.num g.width), ("height", Json.num g.height)]

/-- The `window_geo` argument of `save_config`: omitted (`None`), an already
dict-shaped geometry, or a `QRect` (source lines 27-36 branch on these). -/
inductive WindowGeoArg where
  | noGeo
  | dictGeo (entries : Dict)
  | rectGeo (g : Geometry)

/-- `save_config` (source lines 21-38): the record is rebuilt from the
arguments alone - `memos_url` and `close_to_tray` always, `window` only
when a geometry argument is given.  Nothing is read from the existing file.
The defaulted Python signature is `save_config(url=None, window_geo=None,
close_to_tray=False)`.  The result is the parsed form of the JSON written. -/
def save_config (url : Json) (window_geo : WindowGeoArg) (close_to_tray : Json) : Dict :=
  let data : Dict := [("memos_url", url), ("close_to_tray", close_to_tray)]
  match window_geo with
  | .noGeo => data
  | .dictGeo entries => data ++ [("window", Json.obj entries)]
  | .rectGeo g => data ++ [("window", geometryJson g)]

example : load_config .missing = defaultConfig := rfl

example :
    getKey (load_config (.parsed (Json.obj [("memos_url", Json.str "http://a")]))) "memos_url"
      = Json.str "http://a" := rfl

example :
    getKey (load_config (.parsed (Json.obj [("memos_url", Json.str "http://a")]))) "window"
      = Json.null := rfl

example :
    save_config Json.null .noGeo (Json.bool true)
      = [("memos_url", Json.null), ("close_to_tray", Json.bool true)] := rfl

/-- Python `str.isspace` on a single character, the class `str.strip()`
removes (ASCII whitespace, the C1 separators, NEL, and the Unicode space
characters). -/
def pyIsSpace (c : Char) : Bool :=
  let n := c.toNat
  (9 ≤ n && n ≤ 13) || n == 32 || (28 ≤ n && n ≤ 31) || n == 0x85 ||
    n == 0xa0 || n == 0x1680 || (0x2000 ≤ n && n ≤ 0x200a) ||
    n == 0x2028 || n == 0x2029 || n == 0x202f || n == 0x205f || n == 0x3000

/-- Python `s.strip()`: drop leading and trailing whitespace. -/
def pyStrip (s : String) : String :=
  String.mk (((s.data.dropWhile pyIsSpace).reverse.dropWhile pyIsSpace).reverse)

/-- Outcome of `LauncherWindow.handle_connect`: either the empty-host
warning dialog was shown and the handler returned with no write and no
window change, or a URL was composed, persisted, and handed to
`on_connect` (which opens the Content window) while the launcher closes. -/
inductive ConnectResult where
  | rejected
  | connected (url : String) (newFile : FileState)

/-- `LauncherWindow.handle_connect` (source lines 112-122): strip the host
field; an empty result shows a warning and returns; otherwise compose
`proto + host`, read the current record, and write the URL together with
the existing `close_to_tray` (no `window_geo` argument, so no `window`
key is written). -/
def handle_connect (proto : String) (hostText : String) (fs : FileState) : ConnectResult :=
  let host := pyStrip hostText
  if host = "" then .rejected
  else
    let url := proto ++ host
    let config := load_config fs
    .connected url
      (.parsed (Json.obj (save_config (Json.str url) .noGeo (getKey config "close_to_tray"))))

/-- The `window_geo` value `SettingsWindow.on_checkbox_changed` passes:
`config.get("window")` is `None` or a dict for any record this program
wrote; any other stored value makes `save_config` raise `AttributeError`
at `window_geo.x()` before the file is touched (modelled as `none`). -/
def pyWindowArg : Json → Option WindowGeoArg
  | .null => some .noGeo
  | .obj es => some (.dictGeo es)
  | _ => Option.none

/-- `SettingsWindow.on_checkbox_changed` (source lines 154-161): re-read the
record and write it back wholesale with the new flag (`state == 2` is
Qt.CheckState.Checked).  `Option.none` models the unguarded
`AttributeError` path, on which the file is left unchanged. -/
def on_checkbox_changed (state : Int) (fs : FileState) : Option FileState :=
  let close_to_tray := state == 2
  let config := load_config fs
  (pyWindowArg (getKey config "window")).map fun w =>
    .parsed (Json.obj (save_config (getKey config "memos_url") w (Json.bool close_to_tray)))

/-- The Content window (`self.view`): the URL it was opened with (captured
by the `on_close` closure), its current geometry, and visibility. -/
structure ViewState where
  url : String
  geometry : Geometry
  visible : Bool

/-- The process-level state the lifecycle handlers touch: the config file,
the optional Content window, whether a launcher window is up, and whether
`app.quit()` has been posted (once posted, the event loop exits and the
process terminates when the running handler returns). -/
structure AppState where
  file : FileState
  view : Option ViewState
  launcherShown : Bool
  quitPosted : Bool

/-- The installed close handler `on_close` (source lines 280-288):
`event.ignore()` suppresses the native close; the record is re-read; with
`close_to_tray` truthy the window is hidden, otherwise `app.quit()` is
posted; in both branches `save_config(url=url, window_geo=geometry)` is
called - `close_to_tray` is not passed, so it takes its Python default
`False`. -/
def on_close (s : AppState) (v : ViewState) : AppState :=
  let config := load_config s.file
  let s1 :=
    if pyTruthy (getKey config "close_to_tray")
    then { s with view := some { v with visible := false } }
    else { s with quitPosted := true }
  { s1 with
    file := .parsed (Json.obj (save_config (Json.str v.url) (.rectGeo v.geometry) (Json.bool false))) }

/-- A close event delivered to the Content window (user close, OS close, or
a programmatic `view.close()`): runs `on_close` when the view exists. -/
def closeViewEvent (s : AppState) : AppState :=
  match s.view with
  | some v => on_close s v
  | Option.none => s

/-- `SettingsWindow.reset_url` (source lines 145-152): unlink the config
file; `self.parent_client.view.close()` makes the toolkit deliver a close
event to the installed `closeEvent` handler (`on_close`, whose
`event.ignore()` keeps the widget alive), after which the `view` attribute
is deleted; finally the launcher is shown. -/
def reset_url (s : AppState) : AppState :=
  let s1 : AppState := { s with file := .missing }
  let s2 :=
    match s1.view with
    | some v => { on_close s1 v with view := (Option.none : Option ViewState) }
    | Option.none => s1
  { s2 with launcherShown := true }

/-- The tray-menu quit action (source lines 192-193):
`quit_action.triggered.connect(self.app.quit)` - unconditional. -/
def trayQuitAction (s : AppState) : AppState :=
  { s with quitPosted := true }

/-- The window `MemosClient.__init__` shows first. -/
inductive InitialWindow where
  | launcher
  | content (url : Json) (windowState : Json)

/-- Startup routing (source lines 172-176): load the record; a truthy
`memos_url` opens the Content window with that URL and the stored window
state, anything else shows the launcher.  The if/else makes the two
outcomes exclusive. -/
def startupWindow (fs : FileState) : InitialWindow :=
  let config := load_config fs
  if pyTruthy (getKey config "memos_url")
  then .content (getKey config "memos_url") (getKey config "window")
  else .launcher

/-- How `show_memo_window` sizes the Content window: `setGeometry` with
clamped values, or the default `resize(1000, 700)`. -/
inductive AppliedGeometry where
  | applied (g : Geometry)
  | defaultSize

/-- `window_state.get(k, d)` followed by `max`: a missing key yields the
code's literal default, a number passes through, and any other stored
value makes `max` raise `TypeError` (modelled as `none`). -/
def getNumD (es : Dict) (key : String) (d : Int) : Option Int :=
  match lookupKey es key with
  | Option.none => some d
  | some (.num n) => some n
  | some _ => Option.none

/-- Geometry application in `show_memo_window` (source lines 242-249): a
falsy `window_state` (absent, or an empty dict) takes the default size;
a truthy dict is clamped with `x,y ≥ 0`, `width ≥ 600`, `height ≥ 400`;
a truthy non-dict raises at `.get` (modelled as `none`). -/
def applyWindowState (window_state : Json) : Option AppliedGeometry :=
  if pyTruthy window_state then
    match window_state with
    | .obj es =>
        match getNumD es "x" 100, getNumD es "y" 100,
              getNumD es "width" 1000, getNumD es "height" 700 with
        | some x, some y, some w, some h =>
            some (.applied ⟨max 0 x, max 0 y, max 600 w, max 400 h⟩)
        | _, _, _, _ => Option.none
    | _ => Option.none
  else some .defaultSize

/-- The observable contents of the configuration file while `save_config`
writes it (source lines 37-38): `open(CONFIG_FILE, "w")` truncates the
file in place before `json.dump` streams the new record, so between the
old and the new contents the empty file is observable. -/
def writeObservableStates (old new : String) : List String :=
  [old, "", new]

example : pyStrip "  a b  " = "a b" := rfl
example : handle_connect "http://" "   " .missing = .rejected := rfl
example : applyWindowState (geometryJson ⟨-5, -5, 10, 10⟩) = some (.applied ⟨0, 0, 600, 400⟩) := rfl
example : startupWindow .missing = .launcher := rfl

theorem lookupKey_setKey_self (d : Dict) (key : String) (v : Json) :
    lookupKey (setKey d key v) key = some v := by
  induction d with
  | nil => simp [setKey, lookupKey]
  | cons p rest ih =>
      obtain ⟨k, w⟩ := p
      by_cases h : k = key
      · simp [setKey, h, lookupKey]
      · simp [setKey, h, lookupKey, ih]

theorem lookupKey_setKey_ne (d : Dict) (key key' : String) (v : Json)
    (h : key' ≠ key) : lookupKey (setKey d key v) key' = lookupKey d key' := by
  induction d with
  | nil => simp [setKey, lookupKey, Ne.symm h]
  | cons p rest ih =>
      obtain ⟨k, w⟩ := p
      by_cases hk : k = key
      · subst hk
        simp [setKey, lookupKey, Ne.symm h]
      · by_cases hk' : k = key'
        · simp [setKey, hk, lookupKey, hk', h]
        · simp [setKey, hk, lookupKey, hk', ih]

theorem hasKey_setKey (d : Dict) (key key' : String) (v : Json)
    (h : hasKey d key' = true) : hasKey (setKey d key v) key' = true := by
  by_cases hk : key' = key
  · subst hk
    simp [hasKey, lookupKey_setKey_self]
  · simpa [hasKey, lookupKey_setKey_ne d key key' v hk] using h

theorem hasKey_updateEntries (kvs : List (String × Json)) (d : Dict) (key : String)
    (h : hasKey d key = true) : hasKey (updateEntries d kvs) key = true := by
  induction kvs generalizing d with
  | nil => simpa [updateEntries] using h
  | cons kv rest ih =>
      simpa [updateEntries] using ih (setKey d kv.1 kv.2) (hasKey_setKey d kv.1 key kv.2 h)

theorem hasKey_updateFromList (es : List Json) (d : Dict) (key : String)
    (h : hasKey d key = true) : hasKey (updateFromList d es) key = true := by
  induction es generalizing d with
  | nil => simpa [updateFromList] using h
  | cons e rest ih =>
      unfold updateFromList
      match hp : seqElemPair e with
      | Option.none => simpa using h
      | some Option.none => simpa using ih d h
      | some (some (k, v)) => simpa using ih (setKey d k v) (hasKey_setKey d k key v h)

theorem hasKey_load_config (fs : FileState) (key : String)
    (h : hasKey defaultConfig key = true) : hasKey (load_config fs) key = true := by
  cases fs with
  | parsed j =>
      cases j with
      | obj kvs => exact hasKey_updateEntries kvs defaultConfig key h
      | arr es => exact hasKey_updateFromList es defaultConfig key h
      | null => exact h
      | bool b => exact h
      | num n => exact h
      | str s => exact h
  | missing => exact h
  | ioError => exact h
  | unparsable => exact h

theorem lookupKey_updateEntries_notMem (kvs : List (String × Json)) (d : Dict)
    (key : String) (h : key ∉ kvs.map Prod.fst) :
    lookupKey (updateEntries d kvs) key = lookupKey d key := by
  induction kvs generalizing d with
  | nil => simp [updateEntries]
  | cons kv rest ih =>
      simp only [List.map_cons, List.mem_cons, not_or] at h
      have step : lookupKey (setKey d kv.1 kv.2) key = lookupKey d key :=
        lookupKey_setKey_ne d kv.1 key kv.2 h.1
      simpa [updateEntries, step] using (ih (setKey d kv.1 kv.2) h.2).trans step

/-- A stored record with a URL and a geometry, used as the concrete prior
state in several statements below. -/
def storedSample : FileState :=
  FileState.parsed (Json.obj
    [("memos_url", Json.str "http://memos.example"),
     ("window", geometryJson ⟨10, 20, 800, 600⟩),
     ("close_to_tray", Json.bool false)])

/-- The same stored record with `close_to_tray` set to `true`. -/
def storedSampleTray : FileState :=
  FileState.parsed (Json.obj
    [("memos_url", Json.str "http://memos.example"),
     ("window", geometryJson ⟨10, 20, 800, 600⟩),
     ("close_to_tray", Json.bool true)])

/-- C5: for every possible state of the configuration file (missing, I/O
error, unparsable, or any parsed content) `load_config` returns a record
that contains all three configuration keys; on a missing, unreadable or
unparsable file it returns exactly the all-defaults record
(memos_url = null, window = null, close_to_tray = false); and every
configuration field absent from a readable record keeps its default. -/
theorem load_config_never_fails_and_defaults :
    (∀ fs : FileState,
      hasKey (load_config fs) "memos_url" = true ∧
      hasKey (load_config fs) "window" = true ∧
      hasKey (load_config fs) "close_to_tray" = true) ∧
    load_config .missing = defaultConfig ∧
    load_config .unparsable = defaultConfig ∧
    load_config .ioError = defaultConfig ∧
    (∀ (kvs : List (String × Json)) (key : String),
      hasKey defaultConfig key = true → key ∉ kvs.map Prod.fst →
      lookupKey (load_config (.parsed (Json.obj kvs))) key = lookupKey defaultConfig key) := by
  refine ⟨fun fs => ⟨?_, ?_, ?_⟩, rfl, rfl, rfl, fun kvs key _ hmem => ?_⟩
  · exact hasKey_load_config fs "memos_url" rfl
  · exact hasKey_load_config fs "window" rfl
  · exact hasKey_load_config fs "close_to_tray" rfl
  · exact lookupKey_updateEntries_notMem kvs defaultConfig key hmem

/-- C5 witness: a record holding only a URL reads back with the default
(null) window. -/
theorem load_config_never_fails_and_defaults_witness :
    hasKey defaultConfig "window" = true ∧
    lookupKey (load_config (.parsed (Json.obj [("memos_url", Json.str "http://memos.example")]))) "window"
      = lookupKey defaultConfig "window" :=
  ⟨rfl, load_config_never_fails_and_defaults.2.2.2.2
    [("memos_url", Json.str "http://memos.example")] "window" rfl (by decide)⟩

/-- C1 counterexample: `save_config` does not merge over `read()`.  With a
URL and a geometry stored, the partial write of close_to_tray alone
(`save_config(close_to_tray=True)`, all other arguments at their Python
defaults) produces a record whose URL and window are null - both stored
fields are lost on the next read, contradicting the claim. -/
theorem save_config_overwrites_untouched_fields :
    getKey (load_config storedSample) "memos_url" = Json.str "http://memos.example" ∧
    getKey (load_config storedSample) "window" = geometryJson ⟨10, 20, 800, 600⟩ ∧
    getKey (load_config (.parsed (Json.obj (save_config Json.null .noGeo (Json.bool true))))) "close_to_tray"
      = Json.bool true ∧
    getKey (load_config (.parsed (Json.obj (save_config Json.null .noGeo (Json.bool true))))) "memos_url"
      = Json.null ∧
    getKey (load_config (.parsed (Json.obj (save_config Json.null .noGeo (Json.bool true))))) "window"
      = Json.null :=
  ⟨rfl, rfl, rfl, rfl, rfl⟩

/-- C1 (amended): `save_config` replaces the whole record from its
arguments, so preservation of untouched fields is achieved by the caller
reading the record first and passing every field back.  The tray-toggle
handler (`on_checkbox_changed`) does exactly that: for every stored state
whose window field is null or an object, toggling the flag preserves the
stored URL and geometry and sets close_to_tray to the new value. -/
theorem toggle_tray_preserves_url_and_window
    (fs : FileState) (state : Int) (w : WindowGeoArg)
    (h : pyWindowArg (getKey (load_config fs) "window") = some w) :
    ∃ fs', on_checkbox_changed state fs = some fs' ∧
      getKey (load_config fs') "memos_url" = getKey (load_config fs) "memos_url" ∧
      getKey (load_config fs') "window" = getKey (load_config fs) "window" ∧
      getKey (load_config fs') "close_to_tray" = Json.bool (state == 2) := by
  cases hj : getKey (load_config fs) "window" with
  | null =>
      rw [hj] at h
      simp only [pyWindowArg, Option.some.injEq] at h
      subst h
      refine ⟨.parsed (Json.obj (save_config (getKey (load_config fs) "memos_url")
        .noGeo (Json.bool (state == 2)))), ?_, rfl, rfl, rfl⟩
      simp [on_checkbox_changed, hj, pyWindowArg]
  | obj es =>
      rw [hj] at h
      simp only [pyWindowArg, Option.some.injEq] at h
      subst h
      refine ⟨.parsed (Json.obj (save_config (getKey (load_config fs) "memos_url")
        (.dictGeo es) (Json.bool (state == 2)))), ?_, rfl, rfl, rfl⟩
      simp [on_checkbox_changed, hj, pyWindowArg]
  | bool b => rw [hj] at h; simp [pyWindowArg] at h
  | num n => rw [hj] at h; simp [pyWindowArg] at h
  | str s => rw [hj] at h; simp [pyWindowArg] at h
  | arr es => rw [hj] at h; simp [pyWindowArg] at h

/-- C1 witness: toggling the tray flag on the sample stored record keeps
its URL and geometry and stores the new flag value. -/
theorem toggle_tray_preserves_url_and_window_witness :
    ∃ fs', on_checkbox_changed 2 storedSample = some fs' ∧
      getKey (load_config fs') "memos_url" = Json.str "http://memos.example" ∧
      getKey (load_config fs') "window" = geometryJson ⟨10, 20, 800, 600⟩ ∧
      getKey (load_config fs') "close_to_tray" = Json.bool true := by
  obtain ⟨fs', h1, h2, h3, h4⟩ :=
    toggle_tray_preserves_url_and_window storedSample 2
      (.dictGeo [("x", Json.num 10), ("y", Json.num 20),
                 ("width", Json.num 800), ("height", Json.num 600)]) rfl
  exact ⟨fs', h1, h2.trans rfl, h3.trans rfl, h4⟩

/-- C4 counterexample: the write is not atomic.  While the old record is
replaced by the new one, the truncated (empty) file is observable, and it
is neither the complete old record nor the complete new record. -/
theorem write_not_atomic_cex :
    "" ∈ writeObservableStates "\x7b\"memos_url\": \"http://a\"\x7d" "\x7b\"memos_url\": null\x7d" ∧
    "" ≠ "\x7b\"memos_url\": \"http://a\"\x7d" ∧
    "" ≠ "\x7b\"memos_url\": null\x7d" := by
  refine ⟨?_, ?_, ?_⟩ <;> decide

/-- C4 (amended): `save_config` truncates the file in place and then writes
the new record, so an interrupted write can be observed as an empty
(unparsable) file; a completed write leaves exactly the new record, and
`load_config` degrades any unparsable state to the all-defaults record. -/
theorem write_truncates_then_writes (old new : String) :
    (writeObservableStates old new).getLast? = some new ∧
    "" ∈ writeObservableStates old new ∧
    load_config .unparsable = defaultConfig := by
  refine ⟨rfl, ?_, rfl⟩
  simp [writeObservableStates]

/-- C2 failing-input evaluation: with `close_to_tray = true` stored (plus a
URL and a geometry), a close event on the Content window hides it, but the
record the close handler writes has `close_to_tray = false` - the handler
calls `save_config` without the flag, so it takes its Python default.  The
stored URL survives, the stored tray flag does not. -/
theorem close_resets_tray_flag_at_failing_input :
    getKey (load_config storedSampleTray) "close_to_tray" = Json.bool true ∧
    (let s : AppState :=
      { file := storedSampleTray,
        view := some ⟨"http://memos.example", ⟨10, 20, 800, 600⟩, true⟩,
        launcherShown := false, quitPosted := false }
     (closeViewEvent s).quitPosted = false ∧
     (closeViewEvent s).view = some ⟨"http://memos.example", ⟨10, 20, 800, 600⟩, false⟩ ∧
     getKey (load_config (closeViewEvent s).file) "memos_url" = Json.str "http://memos.example" ∧
     getKey (load_config (closeViewEvent s).file) "close_to_tray" = Json.bool false) :=
  ⟨rfl, rfl, rfl, rfl, rfl⟩

/-- C3 failing-input evaluation: with a URL and geometry stored and the
Content window open, Reset URL unlinks the file, but `view.close()` hands a
close event to the installed handler, which re-reads the (now missing)
record, gets the default `close_to_tray = false`, posts `app.quit()`, and
re-writes the old URL and geometry.  After the reset the process is
quitting, the configuration again holds the URL, and a restart resolves to
the Content window, not the launcher. -/
theorem reset_url_repersists_url_at_failing_input :
    (let s : AppState :=
      { file := storedSample,
        view := some ⟨"http://memos.example", ⟨10, 20, 800, 600⟩, true⟩,
        launcherShown := false, quitPosted := false }
     (reset_url s).view = Option.none ∧
     (reset_url s).launcherShown = true ∧
     (reset_url s).quitPosted = true ∧
     getKey (load_config (reset_url s).file) "memos_url" = Json.str "http://memos.example" ∧
     getKey (load_config (reset_url s).file) "window" = geometryJson ⟨10, 20, 800, 600⟩ ∧
     startupWindow (reset_url s).file
       = .content (Json.str "http://memos.example") (geometryJson ⟨10, 20, 800, 600⟩)) :=
  ⟨rfl, rfl, rfl, rfl, rfl, rfl⟩

/-- C9: on a close event of the Content window, a truthy stored
close_to_tray leaves the process alive (no quit posted) with the window
hidden and the content session intact, a falsy stored flag posts the quit;
and the tray-menu quit action posts the quit unconditionally, whatever the
state. -/
theorem close_to_tray_and_quit_semantics
    (s : AppState) (v : ViewState) (hview : s.view = some v)
    (hq : s.quitPosted = false) :
    ((pyTruthy (getKey (load_config s.file) "close_to_tray") = true →
        (closeViewEvent s).quitPosted = false ∧
        (closeViewEvent s).view = some { v with visible := false }) ∧
     (pyTruthy (getKey (load_config s.file) "close_to_tray") = false →
        (closeViewEvent s).quitPosted = true)) ∧
    (∀ t : AppState, (trayQuitAction t).quitPosted = true) := by
  refine ⟨⟨fun htray => ?_, fun htray => ?_⟩, fun t => rfl⟩
  · simp [closeViewEvent, hview, on_close, htray, hq]
  · simp [closeViewEvent, hview, on_close, htray]

/-- C9 witness: on the sample state with the flag stored true, the close
hides the window without quitting, and the tray quit action quits. -/
theorem close_to_tray_and_quit_semantics_witness :
    (let s : AppState :=
      { file := storedSampleTray,
        view := some ⟨"http://memos.example", ⟨10, 20, 800, 600⟩, true⟩,
        launcherShown := false, quitPosted := false }
     ((closeViewEvent s).quitPosted = false ∧
      (closeViewEvent s).view = some ⟨"http://memos.example", ⟨10, 20, 800, 600⟩, false⟩) ∧
     (trayQuitAction s).quitPosted = true) := by
  have h := close_to_tray_and_quit_semantics
    { file := storedSampleTray,
      view := some ⟨"http://memos.example", ⟨10, 20, 800, 600⟩, true⟩,
      launcherShown := false, quitPosted := false }
    ⟨"http://memos.example", ⟨10, 20, 800, 600⟩, true⟩ rfl rfl
  exact ⟨h.1.1 rfl, h.2 _⟩

/-- The JSON value `save_config` receives for an optional URL. -/
def urlJsonOf : Option String → Json
  | Option.none => Json.null
  | some s => Json.str s

/-- The `window_geo` argument for an optional geometry (a `QRect` when
present, omitted when absent). -/
def windowArgOf : Option Geometry → WindowGeoArg
  | Option.none => .noGeo
  | some g => .rectGeo g

/-- The stored `window` value an optional geometry reads back as. -/
def windowJsonOf : Option Geometry → Json
  | Option.none => Json.null
  | some g => geometryJson g

/-- C6: write followed by read returns every field unchanged - the URL, the
tray flag, and the stored window object - and the geometry the Content
window then applies is the stored one clamped to x ≥ 0, y ≥ 0,
width ≥ 600, height ≥ 400; in particular a stored geometry
(-5, -5, 10, 10) is applied as (0, 0, 600, 400). -/
theorem write_read_roundtrip_with_clamping :
    (∀ (u : Option String) (g : Option Geometry) (t : Bool),
      getKey (load_config (.parsed (Json.obj
          (save_config (urlJsonOf u) (windowArgOf g) (Json.bool t))))) "memos_url"
        = urlJsonOf u ∧
      getKey (load_config (.parsed (Json.obj
          (save_config (urlJsonOf u) (windowArgOf g) (Json.bool t))))) "close_to_tray"
        = Json.bool t ∧
      getKey (load_config (.parsed (Json.obj
          (save_config (urlJsonOf u) (windowArgOf g) (Json.bool t))))) "window"
        = windowJsonOf g ∧
      (∀ geo : Geometry, g = some geo →
        applyWindowState (getKey (load_config (.parsed (Json.obj
            (save_config (urlJsonOf u) (windowArgOf g) (Json.bool t))))) "window")
          = some (.applied ⟨max 0 geo.x, max 0 geo.y, max 600 geo.width, max 400 geo.height⟩))) ∧
    applyWindowState (getKey (load_config (.parsed (Json.obj
        (save_config Json.null (.rectGeo ⟨-5, -5, 10, 10⟩) (Json.bool false))))) "window")
      = some (.applied ⟨0, 0, 600, 400⟩) := by
  refine ⟨fun u g t => ?_, rfl⟩
  cases g with
  | none => cases u <;> exact ⟨rfl, rfl, rfl, fun geo hg => by cases hg⟩
  | some geo0 => cases u <;> exact ⟨rfl, rfl, rfl, fun geo hg => by cases hg; rfl⟩

/-- C6 witness: the concrete geometry (-5, -5, 10, 10) stored with a URL
and the flag set reads back field-for-field and is applied clamped. -/
theorem write_read_roundtrip_with_clamping_witness :
    getKey (load_config (.parsed (Json.obj
        (save_config (urlJsonOf (some "http://memos.example"))
          (windowArgOf (some ⟨-5, -5, 10, 10⟩)) (Json.bool true))))) "memos_url"
      = urlJsonOf (some "http://memos.example") ∧
    applyWindowState (getKey (load_config (.parsed (Json.obj
        (save_config (urlJsonOf (some "http://memos.example"))
          (windowArgOf (some ⟨-5, -5, 10, 10⟩)) (Json.bool true))))) "window")
      = some (.applied ⟨0, 0, 600, 400⟩) := by
  have h := write_read_roundtrip_with_clamping.1 (some "http://memos.example")
    (some ⟨-5, -5, 10, 10⟩) true
  refine ⟨h.1, ?_⟩
  rw [h.2.2.2 ⟨-5, -5, 10, 10⟩ rfl]
  rfl

/-- C7: startup routing resolves a null stored URL to the launcher and any
non-empty stored URL string to the Content window carrying exactly that
string; the initial window is exactly one of the two. -/
theorem startup_routing_resolution (fs : FileState) :
    (getKey (load_config fs) "memos_url" = Json.null → startupWindow fs = .launcher) ∧
    (∀ s : String, s ≠ "" → getKey (load_config fs) "memos_url" = Json.str s →
      startupWindow fs = .content (Json.str s) (getKey (load_config fs) "window")) ∧
    (startupWindow fs = .launcher ↔ ¬ ∃ u w, startupWindow fs = .content u w) := by
  refine ⟨fun h => ?_, fun s hs h => ?_, ?_⟩
  · simp [startupWindow, h, pyTruthy]
  · have ht : pyTruthy (Json.str s) = true := by simpa [pyTruthy] using hs
    simp [startupWindow, h, ht]
  · cases hW : startupWindow fs with
    | launcher =>
        constructor
        · rintro _ ⟨u, w, hh⟩
          exact InitialWindow.noConfusion hh
        · intro _
          rfl
    | content u w =>
        constructor
        · intro hh
          exact InitialWindow.noConfusion hh
        · intro hh
          exact absurd ⟨u, w, rfl⟩ hh

/-- C7 witness: a missing file resolves to the launcher; the sample stored
record resolves to the Content window with its exact URL. -/
theorem startup_routing_resolution_witness :
    startupWindow .missing = .launcher ∧
    startupWindow storedSample
      = .content (Json.str "http://memos.example") (geometryJson ⟨10, 20, 800, 600⟩) := by
  refine ⟨(startup_routing_resolution .missing).1 rfl, ?_⟩
  exact (startup_routing_resolution storedSample).2.1 "http://memos.example" (by decide) rfl

theorem head_dropWhile_false (p : Char → Bool) (l : List Char) (c : Char)
    (h : (l.dropWhile p).head? = some c) : p c = false := by
  induction l with
  | nil => simp [List.dropWhile] at h
  | cons a rest ih =>
      by_cases hp : p a = true
      · rw [List.dropWhile_cons, if_pos hp] at h
        exact ih h
      · rw [List.dropWhile_cons, if_neg hp] at h
        simp only [List.head?_cons, Option.some.injEq] at h
        subst h
        simpa using hp

theorem getLast_dropWhile_ne_nil (p : Char → Bool) (l : List Char)
    (h : l.dropWhile p ≠ []) : (l.dropWhile p).getLast? = l.getLast? := by
  induction l with
  | nil => simp [List.dropWhile] at h
  | cons a rest ih =>
      by_cases hp : p a = true
      · rw [List.dropWhile_cons, if_pos hp] at h ⊢
        have hr : rest ≠ [] := by
          intro hnil
          rw [hnil] at h
          simp [List.dropWhile] at h
        obtain ⟨b, rest', rfl⟩ := List.exists_cons_of_ne_nil hr
        rw [ih h, List.getLast?_cons_cons]
      · rw [List.dropWhile_cons, if_neg hp]

/-- C8: submitting from the launcher rejects a host that strips to empty
with a warning and no write and no transition; a non-empty host is
composed as scheme + host, the composed URL is stored with the existing
tray flag preserved, and the next launch resolves to the Content window
with exactly that URL. -/
theorem submit_url_validation_and_compose (proto host : String) (fs : FileState) :
    (pyStrip host = "" → handle_connect proto host fs = .rejected) ∧
    (pyStrip host ≠ "" →
      ∃ nf, handle_connect proto host fs = .connected (proto ++ pyStrip host) nf ∧
        getKey (load_config nf) "memos_url" = Json.str (proto ++ pyStrip host) ∧
        getKey (load_config nf) "close_to_tray" = getKey (load_config fs) "close_to_tray" ∧
        startupWindow nf = .content (Json.str (proto ++ pyStrip host)) Json.null) := by
  constructor
  · intro h
    simp [handle_connect, h]
  · intro h
    refine ⟨.parsed (Json.obj (save_config (Json.str (proto ++ pyStrip host)) .noGeo
      (getKey (load_config fs) "close_to_tray"))), ?_, rfl, rfl, ?_⟩
    · simp [handle_connect, h]
    · have hne : proto ++ pyStrip host ≠ "" := by
        intro hc
        apply h
        have hd := congrArg String.data hc
        rw [String.data_append] at hd
        exact String.ext (List.append_eq_nil.mp hd).2
      have hs1 : startupWindow (FileState.parsed (Json.obj
          (save_config (Json.str (proto ++ pyStrip host)) .noGeo
            (getKey (load_config fs) "close_to_tray"))))
          = if pyTruthy (Json.str (proto ++ pyStrip host))
            then InitialWindow.content (Json.str (proto ++ pyStrip host)) Json.null
            else InitialWindow.launcher := rfl
      rw [hs1]
      simp [pyTruthy, hne]

/-- C8 witness: a blank host is rejected; the spec scenario
host = 192.168.1.100:5230 with scheme http:// stores exactly
http://192.168.1.100:5230 and the next launch resolves to Content. -/
theorem submit_url_validation_and_compose_witness :
    handle_connect "http://" " " FileState.missing = .rejected ∧
    (∃ nf, handle_connect "http://" "192.168.1.100:5230" FileState.missing
        = .connected ("http://" ++ pyStrip "192.168.1.100:5230") nf ∧
      getKey (load_config nf) "memos_url" = Json.str ("http://" ++ pyStrip "192.168.1.100:5230") ∧
      getKey (load_config nf) "close_to_tray" = getKey (load_config FileState.missing) "close_to_tray" ∧
      startupWindow nf = .content (Json.str ("http://" ++ pyStrip "192.168.1.100:5230")) Json.null) := by
  constructor
  · exact (submit_url_validation_and_compose "http://" " " .missing).1 (by decide)
  · exact (submit_url_validation_and_compose "http://" "192.168.1.100:5230" .missing).2 (by decide)

/-- C10: the host input is stripped of surrounding whitespace before
validation and composition: an input of only whitespace is rejected
exactly like an empty one (no write), any other input stores
scheme ++ strip(input), and the stripped host neither starts nor ends
with a whitespace character. -/
theorem host_input_trimming (proto input : String) (fs : FileState) :
    (input.data.all pyIsSpace = true → handle_connect proto input fs = .rejected) ∧
    (input.data.all pyIsSpace = false →
      ∃ nf, handle_connect proto input fs = .connected (proto ++ pyStrip input) nf ∧
        getKey (load_config nf) "memos_url" = Json.str (proto ++ pyStrip input)) ∧
    (∀ c, (pyStrip input).data.head? = some c → pyIsSpace c = false) ∧
    (∀ c, (pyStrip input).data.getLast? = some c → pyIsSpace c = false) := by
  have hdata : (pyStrip input).data
      = ((input.data.dropWhile pyIsSpace).reverse.dropWhile pyIsSpace).reverse := rfl
  refine ⟨fun hall => ?_, fun hall => ?_, fun c hc => ?_, fun c hc => ?_⟩
  · have h0 : input.data.dropWhile pyIsSpace = [] :=
      List.dropWhile_eq_nil_iff.mpr (by simpa using hall)
    have hstrip : pyStrip input = "" := by
      apply String.ext
      rw [hdata, h0]
      rfl
    simp [handle_connect, hstrip]
  · have ha0ne : input.data.dropWhile pyIsSpace ≠ [] := by
      intro h0
      have h2 : input.data.all pyIsSpace = true :=
        List.all_eq_true.mpr (by simpa using List.dropWhile_eq_nil_iff.mp h0)
      rw [hall] at h2
      exact Bool.false_ne_true h2
    obtain ⟨c0, tl0, hct⟩ := List.exists_cons_of_ne_nil ha0ne
    have hc0 : pyIsSpace c0 = false := by
      apply head_dropWhile_false pyIsSpace input.data c0
      rw [hct]
      rfl
    have hbne : (input.data.dropWhile pyIsSpace).reverse.dropWhile pyIsSpace ≠ [] := by
      intro hb
      have hforall := List.dropWhile_eq_nil_iff.mp hb
      have hcmem : c0 ∈ (input.data.dropWhile pyIsSpace).reverse := by
        rw [hct]; simp
      have h3 := hforall c0 hcmem
      rw [hc0] at h3
      exact Bool.false_ne_true h3
    have hne : pyStrip input ≠ "" := by
      intro hempty
      apply hbne
      have h4 := congrArg String.data hempty
      rw [hdata] at h4
      simpa using h4
    refine ⟨.parsed (Json.obj (save_config (Json.str (proto ++ pyStrip input)) .noGeo
      (getKey (load_config fs) "close_to_tray"))), ?_, rfl⟩
    simp [handle_connect, hne]
  · rw [hdata, List.head?_reverse] at hc
    by_cases hbnil : (input.data.dropWhile pyIsSpace).reverse.dropWhile pyIsSpace = []
    · rw [hbnil] at hc
      simp at hc
    · rw [getLast_dropWhile_ne_nil pyIsSpace _ hbnil, List.getLast?_reverse] at hc
      exact head_dropWhile_false pyIsSpace input.data c hc
  · rw [hdata, List.getLast?_reverse] at hc
    exact head_dropWhile_false pyIsSpace _ c hc

/-- C10 witness: a whitespace-only input is rejected; a padded host stores
the scheme plus the trimmed host, whose first and last characters are not
whitespace. -/
theorem host_input_trimming_witness :
    handle_connect "http://" " \t " FileState.missing = .rejected ∧
    (∃ nf, handle_connect "http://" " 192.168.1.100:5230 " FileState.missing
        = .connected ("http://" ++ pyStrip " 192.168.1.100:5230 ") nf ∧
      getKey (load_config nf) "memos_url"
        = Json.str ("http://" ++ pyStrip " 192.168.1.100:5230 ")) ∧
    pyIsSpace '1' = false ∧
    pyIsSpace '0' = false := by
  refine ⟨(host_input_trimming "http://" " \t " .missing).1 (by decide), ?_, ?_, ?_⟩
  · exact (host_input_trimming "http://" " 192.168.1.100:5230 " .missing).2.1 (by decide)
  · exact (host_input_trimming "http://" " 192.168.1.100:5230 " .missing).2.2.1 '1' (by decide)
  · exact (host_input_trimming "http://" " 192.168.1.100:5230 " .missing).2.2.2 '0' (by decide)
